import Mathlib

/-!
# Verification of the real-time chat router (`src/index.js`, lines 143–177)

This file shallowly embeds the socket.io event-handler block of the
repository's `src/index.js`:

```js
io.on('connection', (socket) => {
    socket.on('setup', (userData) => {
        socket.join(userData._id)
        socket.emit('connected')
    })
    socket.on('join chat', (room) => {
        socket.join(room)
    })
    socket.on('typing', (room) => socket.in(room).emit('typing'))
    socket.on('stop typing', (room) => socket.in(room).emit('stop typing'))
    socket.on('new message', (newMessageRecieved) => {
        const chat = newMessageRecieved.chat
        if (!chat.users) return console.log('chat.users not defined')
        chat.users.forEach((user) => {
            if (user._id == newMessageRecieved.sender._id) return
            socket.in(user._id).emit('message recieved', newMessageRecieved)
        })
    })
    socket.off('setup', (userData) => {
        console.log('USER DISCONNECTED')
        socket.leave(userData._id)
    })
})
```

Platform semantics embedded alongside the application code:

* socket.io rooms: the adapter keeps `Map<RoomName, Set<SocketId>>`; `socket.join`
  inserts into a `Set` (a no-op when the socket is already a member), and room
  names are compared as JavaScript `Map` keys (SameValueZero: the number `5`
  and the string `"5"` are distinct rooms).
* `socket.in(room).emit(ev)` (alias of `socket.to(room)`) delivers `ev` to every
  socket currently in `room` EXCEPT the emitting socket itself.
* `socket.emit(ev)` delivers `ev` to the emitting socket only.
* On transport-level close the socket.io runtime itself removes the socket from
  every room it is in (the adapter deletes the socket id from all room sets);
  this is runtime behaviour independent of any application handler.
* `socket.off(ev, fn)` is `removeListener`: it unregisters a matching listener
  and never invokes `fn`.  The application passes a fresh closure that matches
  no registered listener, so the call has no effect at all; in particular the
  `socket.leave(userData._id)` in its body is dead code and is absent from the
  transition semantics below.
* JavaScript `==` (loose equality) and truthiness are modelled on the primitive
  values that appear as identifiers in this program; `ToNumber` on strings is
  modelled on the optional-sign decimal-integer fragment (plus the empty string,
  which converts to 0), the forms the program's ids take.
* A JavaScript exception thrown inside a handler (e.g. reading `.users` of
  `undefined`) is not caught by socket.io and is modelled as `Except.error`.

Numbers are modelled as `Int`: every identifier the program manipulates is an
integer or a string, and no arithmetic is performed on them.
-/

/-- JavaScript primitive values, the fragment used as identifiers
(`userData._id`, `user._id`, `sender._id`, room names). -/
inductive JPrim where
  /-- `undefined` -/
  | pundef : JPrim
  /-- `null` -/
  | pnull : JPrim
  /-- a boolean -/
  | pbool (b : Bool) : JPrim
  /-- a number (integer fragment) -/
  | pnum (n : Int) : JPrim
  /-- a string -/
  | pstr (s : String) : JPrim
deriving DecidableEq, Repr

/-- Is `c` a decimal digit `'0'`–`'9'`? -/
def isDigitChar (c : Char) : Bool := 48 ≤ c.toNat && c.toNat ≤ 57

/-- The integer denoted by a list of decimal digits, most significant first. -/
def digitsVal (cs : List Char) : Int :=
  cs.foldl (fun a c => a * 10 + (((c.toNat - 48) : Nat) : Int)) 0

/-- A non-empty all-digit list parses to its value; anything else is NaN. -/
def digitsToNum (cs : List Char) : Option Int :=
  if cs ≠ [] ∧ cs.all isDigitChar then some (digitsVal cs) else none

/-- JavaScript `ToNumber` on the string fragment modelled: the empty string
converts to `0`, an optional-sign decimal-integer string to its value, and
anything else to NaN (`none`). -/
def strToNum (s : String) : Option Int :=
  match s.data with
  | [] => some 0
  | '-' :: rest => (digitsToNum rest).map (fun n => -n)
  | '+' :: rest => digitsToNum rest
  | cs => digitsToNum cs

/-- JavaScript `ToNumber` on primitives; `none` models NaN. -/
def toNum : JPrim → Option Int
  | .pundef => none
  | .pnull => some 0
  | .pbool b => some (if b then 1 else 0)
  | .pnum n => some n
  | .pstr s => strToNum s

/-- JavaScript loose equality `==` (ECMA-262 IsLooselyEqual) on `JPrim`:
same-type comparison is strict; `undefined == null`; a number and a string
compare by `ToNumber` of the string; a boolean is first converted by
`ToNumber`.  A NaN (`none`) comparison is false. -/
def looseEq : JPrim → JPrim → Bool
  | .pundef, .pundef => true
  | .pundef, .pnull => true
  | .pnull, .pundef => true
  | .pnull, .pnull => true
  | .pnum a, .pnum b => a == b
  | .pstr a, .pstr b => a == b
  | .pbool a, .pbool b => a == b
  | .pnum a, .pstr s => (strToNum s).elim false (fun m => a == m)
  | .pstr s, .pnum a => (strToNum s).elim false (fun m => m == a)
  | .pbool b, .pnum a => ((if b then 1 else 0) : Int) == a
  | .pnum a, .pbool b => a == ((if b then 1 else 0) : Int)
  | .pbool b, .pstr s => (strToNum s).elim false (fun m => ((if b then 1 else 0) : Int) == m)
  | .pstr s, .pbool b => (strToNum s).elim false (fun m => m == ((if b then 1 else 0) : Int))
  | _, _ => false

/-- JavaScript truthiness on `JPrim` (the integer-number fragment has no NaN). -/
def truthy : JPrim → Bool
  | .pundef => false
  | .pnull => false
  | .pbool b => b
  | .pnum n => n != 0
  | .pstr s => s != ""

/-- A user descriptor object carrying an `_id` property, as found in
`chat.users[i]`, `newMessageRecieved.sender` and the `setup` payload
(`JPrim.pundef` models an object without the property). -/
structure UserDesc where
  _id : JPrim
deriving DecidableEq, Repr

/-- The value of the `chat.users` property of a `new message` payload. -/
inductive UsersVal where
  /-- the property is absent (reads as `undefined`) -/
  | missingU : UsersVal
  /-- a primitive, non-array value -/
  | primU (p : JPrim) : UsersVal
  /-- an array of user-descriptor objects -/
  | arrU (users : List UserDesc) : UsersVal
deriving DecidableEq, Repr

/-- The `chat` object of a `new message` payload. -/
structure ChatObj where
  users : UsersVal
deriving DecidableEq, Repr

/-- A `new message` payload `newMessageRecieved`; `none` models an absent
property (reads as `undefined`). -/
structure NewMessage where
  chat : Option ChatObj
  sender : Option UserDesc
deriving DecidableEq, Repr

/-- A socket id: process-unique handle to a live connection. -/
abbrev Conn := Nat

/-- A room name: any primitive the application passes to `socket.join` /
`socket.in` (user ids and conversation ids share this namespace).  Room names
are compared as JavaScript `Map` keys (SameValueZero), i.e. `JPrim` equality. -/
abbrev RoomId := JPrim

/-- The socket.io adapter's room registry: each room name maps to the list of
socket ids in its member `Set`, in insertion order and without duplicates
(the `Set` semantics are maintained by `ServerState.join` below); an unknown
room is the empty list. -/
structure ServerState where
  rooms : RoomId → List Conn

/-- The registry at server start: no room has any member. -/
def emptyState : ServerState := { rooms := fun _ => [] }

/-- `socket.join(room)`: `Set.add` of the socket id into the room — a no-op
when already a member, otherwise appended (socket.io creates the room's set on
first join). -/
def ServerState.join (s : ServerState) (r : RoomId) (c : Conn) : ServerState :=
  if c ∈ s.rooms r then s
  else { rooms := fun r2 => if r2 = r then s.rooms r ++ [c] else s.rooms r2 }

/-- `leaveAll`: the socket.io runtime's cleanup of a socket — it is deleted
from every room's member set. -/
def ServerState.leaveAll (s : ServerState) (c : Conn) : ServerState :=
  { rooms := fun r => (s.rooms r).filter (fun c2 => c2 ≠ c) }

/-- Transport-level close of a connection: socket.io automatically makes the
socket leave all rooms (adapter `delAll`); no application handler is involved
(the application's `socket.off('setup', …)` call registers nothing, see the
module docstring). -/
def ServerState.disconnect (s : ServerState) (c : Conn) : ServerState :=
  s.leaveAll c

/-- A thrown JavaScript exception; the only kind this handler block can raise
is a `TypeError` (property read on `undefined`/`null`, or calling `forEach` on
a value that has no such method). -/
inductive JSErr where
  | typeError : JSErr
deriving DecidableEq, Repr

/-- Inbound client events dispatched by the `io.on('connection')` block.  The
`socket.off('setup', …)` call at the end of the block registers no listener
(`off` removes listeners), so these five are the complete dispatch table. -/
inductive InEvent where
  | setup (userData : UserDesc) : InEvent
  | joinChat (room : RoomId) : InEvent
  | typing (room : RoomId) : InEvent
  | stopTyping (room : RoomId) : InEvent
  | newMessage (msg : NewMessage) : InEvent
deriving DecidableEq, Repr

/-- Outbound events pushed to individual connections (the source spells the
last event name `'message recieved'`). -/
inductive OutEvent where
  | connected : OutEvent
  | typing : OutEvent
  | stopTyping : OutEvent
  | messageRecieved (payload : NewMessage) : OutEvent
deriving DecidableEq, Repr

/-- The loop body of `chat.users.forEach` in the `new message` handler,
collecting the rooms targeted by `socket.in(user._id).emit`: a descriptor is
skipped when `user._id == newMessageRecieved.sender._id` (loose equality). -/
def fanoutRooms (sd : UserDesc) : List UserDesc → List RoomId
  | [] => []
  | u :: rest =>
    if looseEq u._id sd._id then fanoutRooms sd rest
    else u._id :: fanoutRooms sd rest

/-- The `new message` handler up to delivery: which rooms get a
`message recieved` push.  Faithful to the source line by line:
`const chat = newMessageRecieved.chat` reads `undefined` when the property is
absent, so the next line's `chat.users` read throws a TypeError; a falsy
`chat.users` logs and returns (zero pushes); `chat.users.forEach` throws on a
truthy non-array; the callback reads `newMessageRecieved.sender._id`, which
throws when `sender` is absent — but only if the loop runs at least once. -/
def newMessageRooms (msg : NewMessage) : Except JSErr (List RoomId) :=
  match msg.chat with
  | none => .error .typeError
  | some ch =>
    match ch.users with
    | .missingU => .ok []
    | .primU p => if truthy p then .error .typeError else .ok []
    | .arrU [] => .ok []
    | .arrU (u :: rest) =>
      match msg.sender with
      | none => .error .typeError
      | some sd => .ok (fanoutRooms sd (u :: rest))

/-- One inbound event from connection `c`, dispatched exactly as the
`io.on('connection')` block wires it: returns the new registry state and the
list of `(recipient connection, outbound event)` pushes, or the uncaught
exception the handler threw. -/
def step (s : ServerState) (c : Conn) :
    InEvent → Except JSErr (ServerState × List (Conn × OutEvent))
  | .setup u => .ok (s.join u._id c, [(c, .connected)])
  | .joinChat r => .ok (s.join r c, [])
  | .typing r =>
    .ok (s, ((s.rooms r).filter (fun c2 => c2 ≠ c)).map (fun c2 => (c2, .typing)))
  | .stopTyping r =>
    .ok (s, ((s.rooms r).filter (fun c2 => c2 ≠ c)).map (fun c2 => (c2, .stopTyping)))
  | .newMessage m =>
    match newMessageRooms m with
    | .error e => .error e
    | .ok targets =>
      .ok (s, targets.flatMap fun r =>
        ((s.rooms r).filter (fun c2 => c2 ≠ c)).map
          (fun c2 => (c2, .messageRecieved m)))

/-- Run a sequence of inbound events (each tagged with its sending
connection), threading the registry state and concatenating the pushes; an
uncaught exception aborts the run. -/
def runEvents (s : ServerState) :
    List (Conn × InEvent) → Except JSErr (ServerState × List (Conn × OutEvent))
  | [] => .ok (s, [])
  | (c, e) :: rest =>
    match step s c e with
    | .error err => .error err
    | .ok (s1, out1) =>
      match runEvents s1 rest with
      | .error err => .error err
      | .ok (s2, out2) => .ok (s2, out1 ++ out2)

/-- The registry state after a run (the start state if the run threw). -/
def runState (s : ServerState) (evs : List (Conn × InEvent)) : ServerState :=
  match runEvents s evs with
  | .ok (s2, _) => s2
  | .error _ => s

/-- The user ids named by the `setup` events of a run: the rooms those events
make personal rooms. -/
def setupIds (evs : List (Conn × InEvent)) : List RoomId :=
  evs.filterMap fun ce =>
    match ce.2 with
    | .setup u => some u._id
    | _ => none

/-! ## Concrete scenarios used by individual claims -/

/-- Connection 0 is user `"u1"`, connection 1 is user `"u2"`, and connection 0
additionally sends `join chat` for the room named `"u2"` — user `"u2"`'s
personal room (room names share one namespace). -/
def cexEvs3 : List (Conn × InEvent) :=
  [(0, .setup ⟨.pstr "u1"⟩), (1, .setup ⟨.pstr "u2"⟩), (0, .joinChat (.pstr "u2"))]

/-- A well-formed `new message` payload from user `"u1"` to the chat whose
users are `"u1"` and `"u2"`. -/
def cexMsg3 : NewMessage :=
  { chat := some { users := .arrU [⟨.pstr "u1"⟩, ⟨.pstr "u2"⟩] },
    sender := some ⟨.pstr "u1"⟩ }

/-- The spec's end-to-end scenario message: `chat.users` is
`[{userId:"u1"},{userId:"u2"}]` and `sender.userId` is `"u1"`. -/
def scenarioMsg : NewMessage :=
  { chat := some { users := .arrU [⟨.pstr "u1"⟩, ⟨.pstr "u2"⟩] },
    sender := some ⟨.pstr "u1"⟩ }

/-- The spec's end-to-end scenario: C1 (connection 0, user `"u1"`) and C2
(connection 1, user `"u2"`) both send `setup`; both `join chat` for
`"conv1"`; C1 sends `typing` for `"conv1"`; C1 sends the scenario message. -/
def scenarioEvs : List (Conn × InEvent) :=
  [(0, .setup ⟨.pstr "u1"⟩), (1, .setup ⟨.pstr "u2"⟩),
   (0, .joinChat (.pstr "conv1")), (1, .joinChat (.pstr "conv1")),
   (0, .typing (.pstr "conv1")), (0, .newMessage scenarioMsg)]

/-- One connection sends `setup` twice, with two different user ids. -/
def cexEvs7 : List (Conn × InEvent) :=
  [(0, .setup ⟨.pstr "u1"⟩), (0, .setup ⟨.pstr "u2"⟩)]

/-- One connection sends `setup` once and then joins one conversation room. -/
def wEvs7 : List (Conn × InEvent) :=
  [(0, .setup ⟨.pstr "u1"⟩), (0, .joinChat (.pstr "conv1"))]

/-- A state in which connection 0 is a member of room `"u1"`. -/
def w9State : ServerState := emptyState.join (.pstr "u1") 0

/-- An event sequence mixing every kind of client event. -/
def w9Evs : List (Conn × InEvent) :=
  [(0, .setup ⟨.pstr "u1"⟩), (0, .typing (.pstr "u1")),
   (1, .joinChat (.pstr "conv1")), (0, .newMessage scenarioMsg)]

/-- A `new message` whose single recipient descriptor has the number `5` as
its `_id` while the sender's `_id` is the string `"5"`: loosely equal
(`5 == "5"` in JavaScript) but not strictly equal. -/
def wMsg10 : NewMessage :=
  { chat := some { users := .arrU [⟨.pnum 5⟩] }, sender := some ⟨.pstr "5"⟩ }

/-! ## Registry lemmas -/

/-- Membership after `socket.join`: exactly the old members, plus the joining
socket in the joined room. -/
theorem mem_join_iff (s : ServerState) (r : RoomId) (c : Conn) (r2 : RoomId) (c2 : Conn) :
    c2 ∈ (s.join r c).rooms r2 ↔ c2 ∈ s.rooms r2 ∨ (c2 = c ∧ r2 = r) := by
  unfold ServerState.join
  by_cases hc : c ∈ s.rooms r
  · simp only [if_pos hc]
    constructor
    · exact Or.inl
    · rintro (h | ⟨rfl, rfl⟩)
      · exact h
      · exact hc
  · simp only [if_neg hc]
    by_cases hr : r2 = r
    · subst hr
      simp [List.mem_append]
    · simp [hr]

/-- Joining a room one is already in does not change the state at all. -/
theorem join_mem_left (s : ServerState) (r : RoomId) (c : Conn) (h : c ∈ s.rooms r) :
    s.join r c = s := by
  simp [ServerState.join, h]

/-- The joining socket is a member after `socket.join`. -/
theorem join_mem_self (s : ServerState) (r : RoomId) (c : Conn) :
    c ∈ (s.join r c).rooms r :=
  (mem_join_iff s r c r c).mpr (Or.inr ⟨rfl, rfl⟩)

/-- `socket.join` is idempotent (the adapter's member `Set` ignores
re-insertion). -/
theorem join_join (s : ServerState) (r : RoomId) (c : Conn) :
    (s.join r c).join r c = s.join r c :=
  join_mem_left _ _ _ (join_mem_self s r c)

/-- `socket.join` never removes a membership. -/
theorem mem_join_mono {s : ServerState} {r2 : RoomId} {c2 : Conn}
    (r : RoomId) (c : Conn) (h : c2 ∈ s.rooms r2) : c2 ∈ (s.join r c).rooms r2 :=
  (mem_join_iff s r c r2 c2).mpr (Or.inl h)

/-- A membership count after `socket.join`: a set-like state (count at most
one) has exactly one copy of the joining socket afterwards. -/
theorem join_count (s : ServerState) (r : RoomId) (c : Conn)
    (h : (s.rooms r).count c ≤ 1) : ((s.join r c).rooms r).count c = 1 := by
  unfold ServerState.join
  by_cases hc : c ∈ s.rooms r
  · simp only [if_pos hc]
    have h1 : 0 < (s.rooms r).count c := List.count_pos_iff.mpr hc
    omega
  · simp only [if_neg hc]
    have h0 : (s.rooms r).count c = 0 := List.count_eq_zero.mpr hc
    simp [List.count_append, h0]

/-! ## Single-step lemmas -/

/-- A successful step never removes a membership: no client-sent event makes
any socket leave any room. -/
theorem step_mono {s : ServerState} {c0 : Conn} {e : InEvent} {s2 : ServerState}
    {out : List (Conn × OutEvent)} (h : step s c0 e = .ok (s2, out))
    {c : Conn} {r : RoomId} (hm : c ∈ s.rooms r) : c ∈ s2.rooms r := by
  cases e with
  | setup u =>
    simp only [step, Except.ok.injEq, Prod.mk.injEq] at h
    exact h.1 ▸ mem_join_mono _ _ hm
  | joinChat r2 =>
    simp only [step, Except.ok.injEq, Prod.mk.injEq] at h
    exact h.1 ▸ mem_join_mono _ _ hm
  | typing r2 =>
    simp only [step, Except.ok.injEq, Prod.mk.injEq] at h
    exact h.1 ▸ hm
  | stopTyping r2 =>
    simp only [step, Except.ok.injEq, Prod.mk.injEq] at h
    exact h.1 ▸ hm
  | newMessage m =>
    cases hnm : newMessageRooms m with
    | error err => simp [step, hnm] at h
    | ok ts =>
      simp only [step, hnm, Except.ok.injEq, Prod.mk.injEq] at h
      exact h.1 ▸ hm

/-- Where a membership created by a step comes from: either it was already
there, or the stepping connection itself joined that very room by a `setup`
naming it or a `join chat` for it. -/
theorem step_mem_elim {s : ServerState} {c0 : Conn} {e : InEvent} {s2 : ServerState}
    {out : List (Conn × OutEvent)} (h : step s c0 e = .ok (s2, out))
    {c : Conn} {r : RoomId} (hm : c ∈ s2.rooms r) :
    c ∈ s.rooms r ∨
      (c0 = c ∧ ((∃ u : UserDesc, e = .setup u ∧ u._id = r) ∨ e = .joinChat r)) := by
  cases e with
  | setup u =>
    simp only [step, Except.ok.injEq, Prod.mk.injEq] at h
    rw [← h.1] at hm
    rcases (mem_join_iff s u._id c0 r c).mp hm with h2 | ⟨rfl, rfl⟩
    · exact Or.inl h2
    · exact Or.inr ⟨rfl, Or.inl ⟨u, rfl, rfl⟩⟩
  | joinChat r2 =>
    simp only [step, Except.ok.injEq, Prod.mk.injEq] at h
    rw [← h.1] at hm
    rcases (mem_join_iff s r2 c0 r c).mp hm with h2 | ⟨rfl, rfl⟩
    · exact Or.inl h2
    · exact Or.inr ⟨rfl, Or.inr rfl⟩
  | typing r2 =>
    simp only [step, Except.ok.injEq, Prod.mk.injEq] at h
    exact Or.inl (h.1 ▸ hm)
  | stopTyping r2 =>
    simp only [step, Except.ok.injEq, Prod.mk.injEq] at h
    exact Or.inl (h.1 ▸ hm)
  | newMessage m =>
    cases hnm : newMessageRooms m with
    | error err => simp [step, hnm] at h
    | ok ts =>
      simp only [step, hnm, Except.ok.injEq, Prod.mk.injEq] at h
      exact Or.inl (h.1 ▸ hm)

/-! ## Run lemmas -/

/-- Monotonicity over a whole successful run: client events only ever add
memberships. -/
theorem runEvents_mono {evs : List (Conn × InEvent)} {s s2 : ServerState}
    {out : List (Conn × OutEvent)} (h : runEvents s evs = .ok (s2, out))
    {c : Conn} {r : RoomId} (hm : c ∈ s.rooms r) : c ∈ s2.rooms r := by
  induction evs generalizing s out with
  | nil =>
    simp only [runEvents, Except.ok.injEq, Prod.mk.injEq] at h
    exact h.1 ▸ hm
  | cons ce rest ih =>
    obtain ⟨c1, e1⟩ := ce
    cases hst : step s c1 e1 with
    | error err => simp [runEvents, hst] at h
    | ok p =>
      obtain ⟨s1, out1⟩ := p
      cases hrun : runEvents s1 rest with
      | error err => simp [runEvents, hst, hrun] at h
      | ok q =>
        obtain ⟨sq, outq⟩ := q
        simp only [runEvents, hst, hrun, Except.ok.injEq, Prod.mk.injEq] at h
        obtain ⟨rfl, rfl⟩ := h
        exact ih hrun (step_mono hst hm)

/-- Provenance over a run: a membership at the end was present at the start,
or was created by that very connection's own `setup` naming the room or
`join chat` for the room, somewhere in the sequence. -/
theorem runEvents_mem_elim {evs : List (Conn × InEvent)} {s s2 : ServerState}
    {out : List (Conn × OutEvent)} (h : runEvents s evs = .ok (s2, out))
    {c : Conn} {r : RoomId} (hm : c ∈ s2.rooms r) :
    c ∈ s.rooms r ∨
      (∃ u : UserDesc, (c, InEvent.setup u) ∈ evs ∧ u._id = r) ∨
      (c, InEvent.joinChat r) ∈ evs := by
  induction evs generalizing s out with
  | nil =>
    simp only [runEvents, Except.ok.injEq, Prod.mk.injEq] at h
    exact Or.inl (h.1 ▸ hm)
  | cons ce rest ih =>
    obtain ⟨c1, e1⟩ := ce
    cases hst : step s c1 e1 with
    | error err => simp [runEvents, hst] at h
    | ok p =>
      obtain ⟨s1, out1⟩ := p
      cases hrun : runEvents s1 rest with
      | error err => simp [runEvents, hst, hrun] at h
      | ok q =>
        obtain ⟨sq, outq⟩ := q
        simp only [runEvents, hst, hrun, Except.ok.injEq, Prod.mk.injEq] at h
        obtain ⟨rfl, rfl⟩ := h
        rcases ih hrun with h1 | h1 | h1
        · rcases step_mem_elim hst h1 with h2 | ⟨rfl, ⟨u, rfl, h3⟩ | rfl⟩
          · exact Or.inl h2
          · exact Or.inr (Or.inl ⟨u, List.mem_cons_self .., h3⟩)
          · exact Or.inr (Or.inr (List.mem_cons_self ..))
        · obtain ⟨u, hu, hid⟩ := h1
          exact Or.inr (Or.inl ⟨u, List.mem_cons_of_mem _ hu, hid⟩)
        · exact Or.inr (Or.inr (List.mem_cons_of_mem _ h1))

/-! ## Fan-out lemmas -/

/-- The rooms targeted by the `chat.users.forEach` loop are exactly the `_id`s
of the descriptors not loosely equal to the sender's `_id`. -/
theorem mem_fanoutRooms {sd : UserDesc} {l : List UserDesc} {r : RoomId} :
    r ∈ fanoutRooms sd l ↔
      ∃ u ∈ l, looseEq u._id sd._id = false ∧ r = u._id := by
  induction l with
  | nil => simp [fanoutRooms]
  | cons u rest ih =>
    by_cases h : looseEq u._id sd._id
    · simp [fanoutRooms, h, ih]
    · simp only [Bool.not_eq_true] at h
      simp [fanoutRooms, h, ih, List.mem_cons, or_and_right, exists_or, exists_eq_left]

/-- On a well-formed payload (a `chat` object whose `users` is an array, and a
`sender` object) the `new message` handler throws nothing and targets exactly
the loop's rooms. -/
theorem newMessageRooms_wellformed {msg : NewMessage} {ch : ChatObj}
    {l : List UserDesc} {sd : UserDesc} (hch : msg.chat = some ch)
    (hus : ch.users = .arrU l) (hsd : msg.sender = some sd) :
    newMessageRooms msg = .ok (fanoutRooms sd l) := by
  cases l with
  | nil => simp [newMessageRooms, hch, hus, hsd, fanoutRooms]
  | cons u rest => simp [newMessageRooms, hch, hus, hsd]

/-- Any positive number of `join chat` events for one room from one connection
produces the same registry as a single one, and no outbound pushes. -/
theorem runEvents_replicate_join (c : Conn) (r : RoomId) :
    ∀ (n : Nat), 1 ≤ n → ∀ (s : ServerState),
      runEvents s (List.replicate n (c, InEvent.joinChat r)) = .ok (s.join r c, []) := by
  intro n
  induction n with
  | zero => intro hn; exact absurd hn (by omega)
  | succ m ih =>
    intro _ s
    rw [List.replicate_succ]
    cases Nat.eq_zero_or_pos m with
    | inl h0 => subst h0; simp [runEvents, step]
    | inr hpos =>
      have ihm := ih hpos (s.join r c)
      rw [join_join] at ihm
      simp [runEvents, step, ihm]

/-! ## Claim theorems -/

/-- C1: the spec claims a `new message` event whose `chat.users` is missing or
not a collection is dropped after logging, with zero pushes and no crash, for
every payload shape including one with no `chat` field.  The code's guard
`if (!chat.users) return …` does handle an absent or falsy `users` on a
present `chat` object (second conjunct: zero pushes, no error), but a payload
with no `chat` field at all makes `chat.users` throw a TypeError (first
conjunct), and a truthy non-array `users` makes `chat.users.forEach` throw
(third conjunct) — an uncaught exception, not a logged return. -/
theorem newMessage_malformed_input (s : ServerState) (c : Conn) :
    step s c (.newMessage { chat := none, sender := none }) = .error .typeError ∧
    step s c (.newMessage { chat := some { users := .missingU }, sender := none }) =
      .ok (s, []) ∧
    step s c (.newMessage { chat := some { users := .primU (.pnum 5) }, sender := none }) =
      .error .typeError := ⟨rfl, rfl, rfl⟩

/-- C2: when a connection's transport closes, the socket.io runtime invokes
`leaveAll` on it (regardless of any application handler and even if the
connection never sent `setup`), and afterwards the connection appears in zero
rooms' member sets, however many distinct rooms it had joined. -/
theorem disconnect_removes_from_all_rooms (s : ServerState) (c : Conn) :
    s.disconnect c = s.leaveAll c ∧ ∀ r : RoomId, c ∉ (s.disconnect c).rooms r := by
  refine ⟨rfl, fun r => ?_⟩
  simp [ServerState.disconnect, ServerState.leaveAll, List.mem_filter]

/-- C3, counterexample to the claim as stated: connection 0 (user `"u1"`) is
itself a member of recipient `"u2"`'s personal room, the payload is
well-formed and names `"u2"` as a recipient distinct from the sender, yet the
handler's `socket.in(...)` pushes `message recieved` only to connection 1 —
connection 0, although a member of that personal room, receives nothing, so
the event is NOT pushed to all connections in the recipient's personal room. -/
theorem newMessage_fanout_claim_cex :
    (0 : Conn) ∈ (runState emptyState cexEvs3).rooms (.pstr "u2") ∧
    step (runState emptyState cexEvs3) 0 (.newMessage cexMsg3) =
      .ok (runState emptyState cexEvs3, [(1, .messageRecieved cexMsg3)]) ∧
    ((0 : Conn), OutEvent.messageRecieved cexMsg3) ∉
      [((1 : Conn), OutEvent.messageRecieved cexMsg3)] :=
  ⟨by decide, rfl, by decide⟩

/-- C3, amended: for every well-formed `new message` payload the handler
pushes `message recieved`, carrying the very payload received, exactly to the
connections OTHER THAN THE SENDER'S OWN in the personal room of each recipient
descriptor whose `_id` is not loosely equal to `sender._id`; descriptors
loosely equal to the sender generate no push at all. -/
theorem newMessage_fanout_excludes_sender_conn
    (s : ServerState) (c : Conn) (msg : NewMessage) (ch : ChatObj)
    (l : List UserDesc) (sd : UserDesc)
    (hch : msg.chat = some ch) (hus : ch.users = .arrU l) (hsd : msg.sender = some sd) :
    step s c (.newMessage msg) =
      .ok (s, (fanoutRooms sd l).flatMap fun r =>
        ((s.rooms r).filter (fun c2 => c2 ≠ c)).map
          (fun c2 => (c2, OutEvent.messageRecieved msg))) ∧
    ∀ c2 : Conn,
      ((c2, OutEvent.messageRecieved msg) ∈
        (fanoutRooms sd l).flatMap (fun r =>
          ((s.rooms r).filter (fun c3 => c3 ≠ c)).map
            (fun c3 => (c3, OutEvent.messageRecieved msg))) ↔
        ∃ u ∈ l, looseEq u._id sd._id = false ∧ c2 ∈ s.rooms u._id ∧ c2 ≠ c) := by
  have hr := newMessageRooms_wellformed hch hus hsd
  refine ⟨by simp [step, hr], fun c2 => ?_⟩
  simp only [List.mem_flatMap, List.mem_map, List.mem_filter, Prod.mk.injEq,
    decide_eq_true_eq, and_true]
  constructor
  · rintro ⟨r, hrm, c3, ⟨hmem, hne⟩, rfl⟩
    obtain ⟨u, hu, hlu, rfl⟩ := mem_fanoutRooms.mp hrm
    exact ⟨u, hu, hlu, hmem, hne⟩
  · rintro ⟨u, hu, hlu, hmem, hne⟩
    exact ⟨u._id, mem_fanoutRooms.mpr ⟨u, hu, hlu, rfl⟩, c2, ⟨hmem, hne⟩, rfl⟩

/-- C3, witness: the amended theorem applied to the concrete two-user state
and payload of the counterexample, its well-formedness hypotheses discharged
by `rfl`. -/
theorem newMessage_fanout_excludes_sender_conn_witness :
    (cexMsg3.chat = some { users := .arrU [⟨.pstr "u1"⟩, ⟨.pstr "u2"⟩] }) ∧
    (cexMsg3.sender = some ⟨.pstr "u1"⟩) ∧
    (step (runState emptyState cexEvs3) 0 (.newMessage cexMsg3) =
      .ok (runState emptyState cexEvs3,
        (fanoutRooms ⟨.pstr "u1"⟩ [⟨.pstr "u1"⟩, ⟨.pstr "u2"⟩]).flatMap fun r =>
          (((runState emptyState cexEvs3).rooms r).filter (fun c2 => c2 ≠ 0)).map
            (fun c2 => (c2, OutEvent.messageRecieved cexMsg3)))) :=
  ⟨rfl, rfl,
    (newMessage_fanout_excludes_sender_conn (runState emptyState cexEvs3) 0 cexMsg3
      { users := .arrU [⟨.pstr "u1"⟩, ⟨.pstr "u2"⟩] } [⟨.pstr "u1"⟩, ⟨.pstr "u2"⟩]
      ⟨.pstr "u1"⟩ rfl rfl rfl).1⟩

/-- C4: a `typing` or `stop typing` event for room `r` from connection `c`
changes no state and pushes the corresponding outbound event exactly to the
members of `r` other than `c` itself; in particular `c` never receives its own
typing echo, even when `c` is a member of `r`. -/
theorem typing_never_echoes_sender (s : ServerState) (c : Conn) (r : RoomId) :
    ∃ outT outS,
      step s c (.typing r) = .ok (s, outT) ∧
      step s c (.stopTyping r) = .ok (s, outS) ∧
      (∀ c2 : Conn, (c2, OutEvent.typing) ∈ outT ↔ c2 ∈ s.rooms r ∧ c2 ≠ c) ∧
      (∀ c2 : Conn, (c2, OutEvent.stopTyping) ∈ outS ↔ c2 ∈ s.rooms r ∧ c2 ≠ c) ∧
      (c, OutEvent.typing) ∉ outT ∧ (c, OutEvent.stopTyping) ∉ outS := by
  refine ⟨_, _, rfl, rfl, ?_, ?_, ?_, ?_⟩ <;>
    simp [step, List.mem_map, List.mem_filter]

/-- C5: a `setup{userId}` event joins the connection to the personal room
keyed by `userData._id` and emits `connected` to exactly that connection and
no other. -/
theorem setup_joins_personal_room_and_acks (s : ServerState) (c : Conn) (u : UserDesc) :
    step s c (.setup u) = .ok (s.join u._id c, [(c, OutEvent.connected)]) ∧
    c ∈ (s.join u._id c).rooms u._id ∧
    (∀ c2 : Conn, (c2, OutEvent.connected) ∈ [(c, OutEvent.connected)] ↔ c2 = c) :=
  ⟨rfl, join_mem_self s u._id c, by simp⟩

/-- C6: room joining is idempotent — any positive number of `join chat`
events for room `r` from connection `c` leaves the registry exactly as a
single join does (with no pushes), the member set then contains `c` exactly
once (count 1, given the set-like starting state), and joining twice is the
same state as joining once. -/
theorem join_chat_idempotent (s : ServerState) (c : Conn) (r : RoomId) (n : Nat)
    (hn : 1 ≤ n) (hcount : (s.rooms r).count c ≤ 1) :
    runEvents s (List.replicate n (c, InEvent.joinChat r)) = .ok (s.join r c, []) ∧
    ((s.join r c).rooms r).count c = 1 ∧
    (s.join r c).join r c = s.join r c :=
  ⟨runEvents_replicate_join c r n hn s, join_count s r c hcount, join_join s r c⟩

/-- C6, witness: two `join chat` events for `"conv1"` from connection 0
starting from the empty registry. -/
theorem join_chat_idempotent_witness :
    (1 ≤ 2 ∧ ((emptyState.rooms (.pstr "conv1")).count 0 ≤ 1)) ∧
    (runEvents emptyState (List.replicate 2 (0, InEvent.joinChat (.pstr "conv1"))) =
      .ok (emptyState.join (.pstr "conv1") 0, []) ∧
    ((emptyState.join (.pstr "conv1") 0).rooms (.pstr "conv1")).count 0 = 1 ∧
    (emptyState.join (.pstr "conv1") 0).join (.pstr "conv1") 0 =
      emptyState.join (.pstr "conv1") 0) :=
  ⟨⟨by decide, by decide⟩,
    join_chat_idempotent emptyState 0 (.pstr "conv1") 2 (by decide) (by decide)⟩

/-- C7, counterexample to the claim as stated: nothing stops a second `setup`
— after connection 0 sends `setup` with user id `"u1"` and then `setup` with
user id `"u2"`, it is a member of BOTH personal rooms `"u1"` and `"u2"`
(both ids are named by `setup` events), two distinct personal rooms. -/
theorem second_setup_two_personal_rooms_cex :
    (0 : Conn) ∈ (runState emptyState cexEvs7).rooms (.pstr "u1") ∧
    (0 : Conn) ∈ (runState emptyState cexEvs7).rooms (.pstr "u2") ∧
    JPrim.pstr "u1" ∈ setupIds cexEvs7 ∧
    JPrim.pstr "u2" ∈ setupIds cexEvs7 ∧
    JPrim.pstr "u1" ≠ JPrim.pstr "u2" := by decide

/-- C7, amended: a connection whose `setup` events all carry one user id and
whose `join chat` events never name a personal-room id (an id introduced by
some `setup`) belongs to at most one personal room in every reachable state:
any two personal rooms it is a member of coincide. -/
theorem at_most_one_personal_room_amended
    {evs : List (Conn × InEvent)} {s : ServerState} {out : List (Conn × OutEvent)}
    {c : Conn} {uid : RoomId}
    (hrun : runEvents emptyState evs = .ok (s, out))
    (hsetup : ∀ u : UserDesc, (c, InEvent.setup u) ∈ evs → u._id = uid)
    (hjoin : ∀ r : RoomId, (c, InEvent.joinChat r) ∈ evs → r ∉ setupIds evs) :
    ∀ r1 r2 : RoomId, r1 ∈ setupIds evs → r2 ∈ setupIds evs →
      c ∈ s.rooms r1 → c ∈ s.rooms r2 → r1 = r2 := by
  intro r1 r2 h1 h2 m1 m2
  have key : ∀ r : RoomId, r ∈ setupIds evs → c ∈ s.rooms r → r = uid := by
    intro r hr hm
    rcases runEvents_mem_elim hrun hm with h0 | ⟨u, hu, hid⟩ | hj
    · simp [emptyState] at h0
    · exact hid ▸ hsetup u hu
    · exact absurd hr (hjoin r hj)
  rw [key r1 h1 m1, key r2 h2 m2]

/-- C7, witness: one `setup` as user `"u1"` followed by one conversation-room
join satisfies the amended theorem's hypotheses. -/
theorem at_most_one_personal_room_amended_witness :
    (∀ u : UserDesc, ((0 : Conn), InEvent.setup u) ∈ wEvs7 → u._id = .pstr "u1") ∧
    (∀ r : RoomId, ((0 : Conn), InEvent.joinChat r) ∈ wEvs7 → r ∉ setupIds wEvs7) ∧
    (∀ r1 r2 : RoomId, r1 ∈ setupIds wEvs7 → r2 ∈ setupIds wEvs7 →
      0 ∈ (runState emptyState wEvs7).rooms r1 →
      0 ∈ (runState emptyState wEvs7).rooms r2 → r1 = r2) := by
  have hsetup : ∀ u : UserDesc, ((0 : Conn), InEvent.setup u) ∈ wEvs7 → u._id = .pstr "u1" := by
    intro u hu
    simp [wEvs7] at hu
    rw [hu]
  have hjoin : ∀ r : RoomId, ((0 : Conn), InEvent.joinChat r) ∈ wEvs7 → r ∉ setupIds wEvs7 := by
    intro r hrm
    simp [wEvs7] at hrm
    rw [hrm]
    decide
  exact ⟨hsetup, hjoin, at_most_one_personal_room_amended rfl hsetup hjoin⟩

/-- C8: the spec's end-to-end scenario — both users `setup`, both join
`"conv1"`, C1 (connection 0) types, then C1 sends the scenario message: the
run's outbound pushes are exactly a `connected` to each connection, a
`typing` delivered only to connection 1, and a `message recieved` delivered
only to connection 1. -/
theorem scenario_two_users_only_c2_receives :
    (runEvents emptyState scenarioEvs).map (fun p => p.2) =
      .ok [(0, .connected), (1, .connected), (1, .typing),
           (1, .messageRecieved scenarioMsg)] := rfl

/-- C9: the `socket.off('setup', …)` teardown callback is never executed —
no client-sent event dispatched by the router ever removes any connection from
any room (membership only grows along a successful run), so in particular no
client event removes a connection from its personal room. -/
theorem client_events_never_remove_membership
    {s0 s : ServerState} {evs : List (Conn × InEvent)} {out : List (Conn × OutEvent)}
    (h : runEvents s0 evs = .ok (s, out)) (c : Conn) (r : RoomId)
    (hm : c ∈ s0.rooms r) : c ∈ s.rooms r :=
  runEvents_mono h hm

/-- C9, witness: connection 0's membership of room `"u1"` survives a run
containing every kind of client event. -/
theorem client_events_never_remove_membership_witness :
    (0 : Conn) ∈ w9State.rooms (.pstr "u1") ∧
    (0 : Conn) ∈ (runState w9State w9Evs).rooms (.pstr "u1") :=
  ⟨by decide,
    @client_events_never_remove_membership w9State (runState w9State w9Evs) w9Evs
      [(0, .connected)] rfl 0 (.pstr "u1") (by decide)⟩

/-- C10: the sender-exclusion test uses loose equality — a recipient
descriptor whose `_id` is loosely equal to `sender._id`, even when not
strictly equal (e.g. the number 5 versus the string `"5"`), is skipped by the
`forEach` loop, and the room keyed by that `_id` is not a target of any
`message recieved` push of this event. -/
theorem loose_equal_recipient_skipped
    (msg : NewMessage) (ch : ChatObj) (l : List UserDesc) (sd : UserDesc) (u : UserDesc)
    (hch : msg.chat = some ch) (hus : ch.users = .arrU l) (hsd : msg.sender = some sd)
    (hu : u ∈ l) (hle : looseEq u._id sd._id = true) (hne : u._id ≠ sd._id) :
    newMessageRooms msg = .ok (fanoutRooms sd l) ∧ u._id ∉ fanoutRooms sd l := by
  refine ⟨newMessageRooms_wellformed hch hus hsd, fun hmem => ?_⟩
  obtain ⟨u2, hu2, hlu2, heq⟩ := mem_fanoutRooms.mp hmem
  simp [heq, hlu2] at hle

/-- C10, witness: recipient `_id` the number `5`, sender `_id` the string
`"5"`. -/
theorem loose_equal_recipient_skipped_witness :
    ((⟨.pnum 5⟩ : UserDesc) ∈ [(⟨.pnum 5⟩ : UserDesc)] ∧
     looseEq (.pnum 5) (.pstr "5") = true ∧
     JPrim.pnum 5 ≠ JPrim.pstr "5") ∧
    (newMessageRooms wMsg10 = .ok (fanoutRooms ⟨.pstr "5"⟩ [⟨.pnum 5⟩]) ∧
     JPrim.pnum 5 ∉ fanoutRooms ⟨.pstr "5"⟩ [⟨.pnum 5⟩]) :=
  ⟨⟨by decide, by decide, by decide⟩,
    loose_equal_recipient_skipped wMsg10 { users := .arrU [⟨.pnum 5⟩] } [⟨.pnum 5⟩]
      ⟨.pstr "5"⟩ ⟨.pnum 5⟩ rfl rfl rfl (by decide) (by decide) (by decide)⟩
